import Mathlib

/-!
Verification of the ProcessLab BPMN patch/versioning engine.

This file gives a shallow embedding of the core of the repository:
the BPMN document model (`packages/shared-schemas/src/models.py`), the
patch engine (`apps/api/app/services/bpmn/patch.py`), the structural
linter (`apps/api/app/services/agents/linter.py`), the deterministic
command interpreter and name resolution (`apps/api/app/api/v1/edit.py`),
the JSON↔XML codec (`apps/api/app/services/bpmn/json_to_xml.py` and
`apps/api/app/infrastructure/services/bpmn/xml_to_json.py`), the edit
use case with optimistic locking
(`apps/api/app/application/bpmn/edit_bpmn.py`,
`apps/api/app/api/governance.py`) and the version entity
(`apps/api/app/domain/entities/version.py`), together with theorems
settling the frozen claims about those components.

Machine integers do not occur; Python integers are `Nat`/`Int`, with
`% 2 ^ 32` written out where SHA-256 works on 32-bit words.
-/

namespace ProcessLab

/-! ## Python string primitives

Helpers mirroring the exact Python built-ins the source uses:
`str.lower` (the source only ever lowercases ASCII identifiers and
commands, so ASCII lowering is the faithful embedding), `str.strip`,
`in` (substring containment), `str.replace` and truthiness of optional
strings (`None` and `""` are falsy). -/

def asciiLowerChar (c : Char) : Char :=
  if 'A' ≤ c ∧ c ≤ 'Z' then Char.ofNat (c.toNat + 32) else c

def asciiLower (s : String) : String := ⟨s.data.map asciiLowerChar⟩

def isPySpace (c : Char) : Bool :=
  c = ' ' ∨ c = '\t' ∨ c = '\n' ∨ c = '\r' ∨ c = '\x0b' ∨ c = '\x0c'

def pyStrip (s : String) : String :=
  ⟨((s.data.dropWhile isPySpace).reverse.dropWhile isPySpace).reverse⟩

/-- `pat ∈ l` as Python substring containment (`pat in s`). -/
def listContainsSub (pat : List Char) : List Char → Bool
  | [] => pat.isEmpty
  | c :: rest => pat.isPrefixOf (c :: rest) || listContainsSub pat rest

def strContains (s sub : String) : Bool := listContainsSub sub.data s.data

/-- Python `s.replace(old, new)` for a non-empty `old`: replaces
non-overlapping occurrences left to right.  The `Nat` argument is fuel
(`replaceList` passes the list length, which always suffices since each
step consumes at least one character); structural recursion on it keeps
the function kernel-reducible. -/
def replaceFuel (pat repl : List Char) : Nat → List Char → List Char
  | 0, l => l
  | _ + 1, [] => []
  | fuel + 1, c :: rest =>
    if pat.length ≠ 0 ∧ pat.isPrefixOf (c :: rest) then
      repl ++ replaceFuel pat repl fuel (rest.drop (pat.length - 1))
    else
      c :: replaceFuel pat repl fuel rest

def replaceList (pat repl l : List Char) : List Char := replaceFuel pat repl l.length l

def pyReplace (s pat repl : String) : String := ⟨replaceList pat.data repl.data s.data⟩

instance exceptDecEq {ε α : Type} [DecidableEq ε] [DecidableEq α] :
    DecidableEq (Except ε α) := fun x y =>
  match x, y with
  | .ok a, .ok b => decidable_of_iff (a = b) (by simp)
  | .error a, .error b => decidable_of_iff (a = b) (by simp)
  | .ok _, .error _ => isFalse (by simp)
  | .error _, .ok _ => isFalse (by simp)

/-- Python truthiness of an `Optional[str]`: `None` and `""` are falsy. -/
def truthy : Option String → Bool
  | none => false
  | some s => !s.isEmpty

/-! ## JSON values and Python's canonical serialization

`json.dumps(obj, sort_keys=True, separators=(",", ":"))` as used for
etags in `version.py`, `restore_version.py` and `edit_bpmn.py`.
Documents only ever hold null, booleans, integers, strings, arrays and
objects, so `Json.num` carries an `Int`. -/

mutual

inductive Json where
  | null
  | bool (b : Bool)
  | num (n : Int)
  | str (s : String)
  | arr (xs : JsonList)
  | obj (fields : JsonFields)

inductive JsonList where
  | nil
  | cons (hd : Json) (tl : JsonList)

inductive JsonFields where
  | nil
  | cons (key : String) (val : Json) (tl : JsonFields)

end

def JsonList.ofList : List Json → JsonList
  | [] => .nil
  | x :: xs => .cons x (JsonList.ofList xs)

def JsonFields.ofList : List (String × Json) → JsonFields
  | [] => .nil
  | (k, v) :: fs => .cons k v (JsonFields.ofList fs)

def Json.mkArr (xs : List Json) : Json := .arr (JsonList.ofList xs)

def Json.mkObj (fs : List (String × Json)) : Json := .obj (JsonFields.ofList fs)

def hexDigitChar (n : Nat) : Char := "0123456789abcdef".data.getD n '0'

/-- `\uXXXX` escape (lowercase hex, as CPython emits). -/
def uEscape (n : Nat) : List Char :=
  ['\\', 'u', hexDigitChar (n / 4096 % 16), hexDigitChar (n / 256 % 16),
   hexDigitChar (n / 16 % 16), hexDigitChar (n % 16)]

/-- One character of a JSON string under `json.dumps` defaults
(`ensure_ascii=True`). -/
def jsonEscapeChar (c : Char) : List Char :=
  if c = '"' then ['\\', '"']
  else if c = '\\' then ['\\', '\\']
  else if c = '\n' then ['\\', 'n']
  else if c = '\r' then ['\\', 'r']
  else if c = '\t' then ['\\', 't']
  else if c.toNat = 8 then ['\\', 'b']
  else if c.toNat = 12 then ['\\', 'f']
  else if c.toNat < 32 then uEscape c.toNat
  else if c.toNat < 127 then [c]
  else if c.toNat < 65536 then uEscape c.toNat
  else
    uEscape (55296 + (c.toNat - 65536) / 1024) ++ uEscape (56320 + (c.toNat - 65536) % 1024)

def jsonQuote (s : String) : String :=
  "\"" ++ ⟨s.data.flatMap jsonEscapeChar⟩ ++ "\""

/-- Lexicographic comparison of code-point lists, the order Python's
`sorted` uses on `str`. -/
def codepointGo : List Char → List Char → Bool
  | [], [] => false
  | [], _ :: _ => true
  | _ :: _, [] => false
  | x :: xs, y :: ys =>
    if x.toNat < y.toNat then true
    else if y.toNat < x.toNat then false
    else codepointGo xs ys

/-- `a < b` for Python strings. -/
def codepointLt (a b : String) : Bool := codepointGo a.data b.data

/-- Stable insertion keeping the new pair before key-equal existing
pairs (the new pair comes earlier in the original list). -/
def insertByKey (p : String × String) : List (String × String) → List (String × String)
  | [] => [p]
  | q :: rest => if codepointLt q.1 p.1 then q :: insertByKey p rest else p :: q :: rest

/-- Stable sort of key/rendered-value pairs by key, as `sort_keys=True`
orders the fields of an object (the sort only inspects keys, so sorting
after rendering each value equals rendering after sorting). -/
def sortDumped : List (String × String) → List (String × String)
  | [] => []
  | p :: rest => insertByKey p (sortDumped rest)

mutual

/-- `json.dumps(v, sort_keys=True, separators=(",", ":"))`. -/
def canonicalDumps : Json → String
  | .null => "null"
  | .bool true => "true"
  | .bool false => "false"
  | .num n => toString n
  | .str s => jsonQuote s
  | .arr xs => "[" ++ String.intercalate "," (dumpsList xs) ++ "]"
  | .obj fs =>
    "\x7b" ++
      String.intercalate ","
        ((sortDumped (dumpsFields fs)).map fun q => jsonQuote q.1 ++ ":" ++ q.2) ++
      "\x7d"

def dumpsList : JsonList → List String
  | .nil => []
  | .cons h t => canonicalDumps h :: dumpsList t

def dumpsFields : JsonFields → List (String × String)
  | .nil => []
  | .cons k v t => (k, canonicalDumps v) :: dumpsFields t

end

/-- Python `d or {}` on a JSON value (an empty dict is falsy). -/
def jsonOr (j : Json) : Json :=
  match j with
  | .obj .nil => .obj .nil
  | j => j

/-! ## UTF-8 and SHA-256

`hashlib.sha256(serialized.encode("utf-8")).hexdigest()`.  Words are
`Nat` taken `% 2 ^ 32`. -/

def utf8Char (c : Char) : List Nat :=
  let n := c.toNat
  if n < 128 then [n]
  else if n < 2048 then [192 + n / 64, 128 + n % 64]
  else if n < 65536 then [224 + n / 4096, 128 + n / 64 % 64, 128 + n % 64]
  else [240 + n / 262144, 128 + n / 4096 % 64, 128 + n / 64 % 64, 128 + n % 64]

def utf8Bytes (s : String) : List Nat := s.data.flatMap utf8Char

def w32 : Nat := 4294967296

def rotr32 (x n : Nat) : Nat := ((x >>> n) ||| (x <<< (32 - n))) % w32

/-- The 64 SHA-256 round constants of FIPS 180-4, written in decimal. -/
def sha256K : List Nat :=
  [1116352408, 1899447441, 3049323471, 3921009573, 961987163,
   1508970993, 2453635748, 2870763221, 3624381080, 310598401,
   607225278, 1426881987, 1925078388, 2162078206, 2614888103,
   3248222580, 3835390401, 4022224774, 264347078, 604807628,
   770255983, 1249150122, 1555081692, 1996064986, 2554220882,
   2821834349, 2952996808, 3210313671, 3336571891, 3584528711,
   113926993, 338241895, 666307205, 773529912, 1294757372,
   1396182291, 1695183700, 1986661051, 2177026350, 2456956037,
   2730485921, 2820302411, 3259730800, 3345764771, 3516065817,
   3600352804, 4094571909, 275423344, 430227734, 506948616,
   659060556, 883997877, 958139571, 1322822218, 1537002063,
   1747873779, 1955562222, 2024104815, 2227730452, 2361852424,
   2428436474, 2756734187, 3204031479, 3329325298]

/-- The eight SHA-256 initial hash words, written in decimal. -/
def sha256H0 : List Nat :=
  [1779033703, 3144134277, 1013904242, 2773480762, 1359893119,
   2600822924, 528734635, 1541459225]

def sha256Pad (msg : List Nat) : List Nat :=
  let len := msg.length
  let bitLen := len * 8
  let zeros := (55 + 64 - len % 64) % 64
  msg ++ [128] ++ List.replicate zeros 0 ++
    [bitLen / 2 ^ 56 % 256, bitLen / 2 ^ 48 % 256, bitLen / 2 ^ 40 % 256, bitLen / 2 ^ 32 % 256,
     bitLen / 2 ^ 24 % 256, bitLen / 2 ^ 16 % 256, bitLen / 2 ^ 8 % 256, bitLen % 256]

/-- Big-endian 32-bit words from bytes. -/
def bytesToWords : List Nat → List Nat
  | b0 :: b1 :: b2 :: b3 :: rest => (b0 * 2 ^ 24 + b1 * 2 ^ 16 + b2 * 2 ^ 8 + b3) :: bytesToWords rest
  | _ => []

/-- Split into 64-byte blocks, with fuel (`chunks64` passes the length,
which suffices since each block consumes 64 bytes). -/
def chunks64Fuel : Nat → List Nat → List (List Nat)
  | 0, _ => []
  | fuel + 1, l => if l.isEmpty then [] else l.take 64 :: chunks64Fuel fuel (l.drop 64)

def chunks64 (l : List Nat) : List (List Nat) := chunks64Fuel (l.length + 1) l

def smallSigma0 (x : Nat) : Nat := (rotr32 x 7) ^^^ (rotr32 x 18) ^^^ (x >>> 3)
def smallSigma1 (x : Nat) : Nat := (rotr32 x 17) ^^^ (rotr32 x 19) ^^^ (x >>> 10)
def bigSigma0 (x : Nat) : Nat := (rotr32 x 2) ^^^ (rotr32 x 13) ^^^ (rotr32 x 22)
def bigSigma1 (x : Nat) : Nat := (rotr32 x 6) ^^^ (rotr32 x 11) ^^^ (rotr32 x 25)
def chFn (x y z : Nat) : Nat := (x &&& y) ^^^ ((x ^^^ 4294967295) &&& z)
def majFn (x y z : Nat) : Nat := (x &&& y) ^^^ (x &&& z) ^^^ (y &&& z)

/-- Extend the 16-word block to the 64-word message schedule. -/
def extendSchedule : Nat → List Nat → List Nat
  | 0, ws => ws
  | k + 1, ws =>
    let i := ws.length
    let w := (smallSigma1 (ws.getD (i - 2) 0) + ws.getD (i - 7) 0 +
              smallSigma0 (ws.getD (i - 15) 0) + ws.getD (i - 16) 0) % w32
    extendSchedule k (ws ++ [w])

def compressRound (st : List Nat) (kw : Nat × Nat) : List Nat :=
  match st with
  | [a, b, c, d, e, f, g, h] =>
    let t1 := (h + bigSigma1 e + chFn e f g + kw.1 + kw.2) % w32
    let t2 := (bigSigma0 a + majFn a b c) % w32
    [(t1 + t2) % w32, a, b, c, (d + t1) % w32, e, f, g]
  | st => st

def processBlock (h : List Nat) (block : List Nat) : List Nat :=
  let ws := extendSchedule 48 (bytesToWords block)
  let st := (sha256K.zip ws).foldl compressRound h
  (h.zip st).map fun p => (p.1 + p.2) % w32

def word32Hex (n : Nat) : String :=
  ⟨[hexDigitChar (n / 16 ^ 7 % 16), hexDigitChar (n / 16 ^ 6 % 16), hexDigitChar (n / 16 ^ 5 % 16),
    hexDigitChar (n / 16 ^ 4 % 16), hexDigitChar (n / 16 ^ 3 % 16), hexDigitChar (n / 16 ^ 2 % 16),
    hexDigitChar (n / 16 % 16), hexDigitChar (n % 16)]⟩

def sha256Hex (msg : List Nat) : String :=
  let blocks := chunks64 (sha256Pad msg)
  let hFinal := blocks.foldl processBlock sha256H0
  String.join (hFinal.map word32Hex)

/-- The etag scheme shared by `ModelVersion.create`,
`RestoreVersionUseCase._compute_etag` and `EditBpmnUseCase.execute`:
`sha256(json.dumps(payload or {}, sort_keys=True, separators=(",", ":")))`. -/
def computeEtag (payload : Json) : String :=
  sha256Hex (utf8Bytes (canonicalDumps (jsonOr payload)))

/-! ## Document model

`packages/shared-schemas/src/models.py` (re-exported as `app.schemas`).
`BPMNElement.type` is a 7-value `Literal`; pydantic enforces it at
construction time but not on plain attribute assignment (the patch
service's `convert` mutates `type` without re-validation), so the field
is a `String` here and construction sites check `allowedElementTypes`. -/

structure ProcessInfo where
  id : String
  name : Option String := none
  documentation : Option String := none
deriving DecidableEq

structure Lane where
  id : String
  name : String
  childElementIds : List String := []
deriving DecidableEq

structure ElementMeta where
  sourceArtifactId : Option String := none
  pageNumber : Option Int := none
deriving DecidableEq

structure BPMNElement where
  id : String
  type : String
  name : Option String := none
  laneId : Option String := none
  meta : Option ElementMeta := none
deriving DecidableEq

structure SequenceFlow where
  id : Option String := none
  source : String
  target : String
  type : String := "sequenceFlow"
  name : Option String := none
deriving DecidableEq

structure BPMNJSON where
  process : ProcessInfo
  lanes : List Lane := []
  elements : List BPMNElement
  flows : List SequenceFlow
deriving DecidableEq

/-- The values of the `Literal` type of `BPMNElement.type`. -/
def allowedElementTypes : List String :=
  ["task", "userTask", "serviceTask", "startEvent", "endEvent",
   "exclusiveGateway", "parallelGateway"]

/-! `model_dump()` of the shared models, as fed to `json.dumps` for
etags (`edit_bpmn.py` serializes `current_bpmn_json`, which the API
layer produces by `model_dump()`). -/

def optStrJson : Option String → Json
  | none => .null
  | some s => .str s

def metaToJson : Option ElementMeta → Json
  | none => .null
  | some m => .mkObj [("sourceArtifactId", optStrJson m.sourceArtifactId),
                      ("pageNumber", match m.pageNumber with | none => .null | some n => .num n)]

def processToJson (p : ProcessInfo) : Json :=
  .mkObj [("id", .str p.id), ("name", optStrJson p.name),
          ("documentation", optStrJson p.documentation)]

def laneToJson (l : Lane) : Json :=
  .mkObj [("id", .str l.id), ("name", .str l.name),
          ("childElementIds", .mkArr (l.childElementIds.map .str))]

def elementToJson (e : BPMNElement) : Json :=
  .mkObj [("id", .str e.id), ("type", .str e.type), ("name", optStrJson e.name),
          ("laneId", optStrJson e.laneId), ("meta", metaToJson e.meta)]

def flowToJson (f : SequenceFlow) : Json :=
  .mkObj [("id", optStrJson f.id), ("source", .str f.source), ("target", .str f.target),
          ("type", .str f.type), ("name", optStrJson f.name)]

def docToJson (d : BPMNJSON) : Json :=
  .mkObj [("process", processToJson d.process),
          ("lanes", .mkArr (d.lanes.map laneToJson)),
          ("elements", .mkArr (d.elements.map elementToJson)),
          ("flows", .mkArr (d.flows.map flowToJson))]

/-! ## Patch engine

`apps/api/app/services/bpmn/patch.py` (`BpmnPatchService`).  The
Python args are an untyped dict; `PatchArgs` records every key the
service and the interpreter read, `none` meaning the key is absent.
`uuid.uuid4().hex[:8]` is nondeterministic, so the generated suffix is
a parameter `hex8`.  Python exceptions become `Except.error`. -/

structure PatchArgs where
  type : Option String := none
  id : Option String := none
  name : Option String := none
  laneId : Option String := none
  sourceId : Option String := none
  targetId : Option String := none
  key : Option String := none
  value : Option String := none
  sourceName : Option String := none
  targetName : Option String := none
  oldName : Option String := none
  newName : Option String := none
  nodeName : Option String := none
  laneName : Option String := none
  x : Option Int := none
  y : Option Int := none
deriving DecidableEq

structure Patch where
  op : String
  args : PatchArgs := {}
deriving DecidableEq

namespace BpmnPatchService

/-- `node_type = args.get("type", "task").replace("bpmn:", "")`. -/
def addNodeType0 (args : PatchArgs) : String := pyReplace (args.type.getD "task") "bpmn:" ""

/-- The `"Task" in node_type` rewriting applied after the id was
already generated. -/
def addNodeFinalType (args : PatchArgs) : String :=
  if strContains (addNodeType0 args) "Task" ∧
      addNodeType0 args ∉ ["userTask", "serviceTask", "scriptTask", "businessRuleTask"] then
    "task"
  else addNodeType0 args

/-- `_add_node`: `node_type` is normalized by `replace("bpmn:", "")`,
the id is generated from that normalized string *before* the
`"Task" in node_type` rewriting, and `BPMNElement(...)` then validates
the final type against the `Literal`. -/
def addNode (bpmn : BPMNJSON) (args : PatchArgs) (hex8 : String) : Except String BPMNJSON :=
  let nodeId := if truthy args.id then args.id.getD "" else addNodeType0 args ++ "_" ++ hex8
  if addNodeFinalType args ∈ allowedElementTypes then
    .ok { bpmn with
          elements := bpmn.elements ++
            [{ id := nodeId, type := addNodeFinalType args, name := some (args.name.getD ""),
               laneId := args.laneId }] }
  else
    .error ("validation error: BPMNElement.type " ++ addNodeFinalType args)

/-- `_connect`: requires truthy `sourceId`/`targetId` but does not check
that they name existing elements; always appends a generated flow. -/
def connect (bpmn : BPMNJSON) (args : PatchArgs) (hex8 : String) : Except String BPMNJSON :=
  if ¬ truthy args.sourceId ∨ ¬ truthy args.targetId then
    .error "Connect requires sourceId and targetId"
  else
    .ok { bpmn with
          flows := bpmn.flows ++
            [{ id := some ("Flow_" ++ hex8), source := args.sourceId.getD "",
               target := args.targetId.getD "", type := "sequenceFlow",
               name := some (args.name.getD "") }] }

/-- `_remove`: drops the element with the id, cascades flows touching
it, and drops a flow with that id. -/
def remove (bpmn : BPMNJSON) (args : PatchArgs) : Except String BPMNJSON :=
  if ¬ truthy args.id then .error "Remove requires id"
  else
    let tid := args.id.getD ""
    .ok { bpmn with
          elements := bpmn.elements.filter fun n => n.id ≠ tid,
          flows := (bpmn.flows.filter fun e => e.source ≠ tid ∧ e.target ≠ tid).filter
            fun e => e.id ≠ some tid }

/-- Set `name` on the first element with the id (the Python loop
returns at the first hit); `none` when no element matches. -/
def renameElems (tid nm : String) : List BPMNElement → Option (List BPMNElement)
  | [] => none
  | e :: rest =>
    if e.id = tid then some ({ e with name := some nm } :: rest)
    else (renameElems tid nm rest).map (e :: ·)

def renameFlows (tid nm : String) : List SequenceFlow → Option (List SequenceFlow)
  | [] => none
  | f :: rest =>
    if f.id = some tid then some ({ f with name := some nm } :: rest)
    else (renameFlows tid nm rest).map (f :: ·)

/-- `_rename`: renames the first matching element, else the first
matching flow, else silently leaves the document unchanged. -/
def rename (bpmn : BPMNJSON) (args : PatchArgs) : Except String BPMNJSON :=
  if ¬ truthy args.id ∨ args.name = none then .error "Rename requires id and name"
  else
    let tid := args.id.getD ""
    let nm := args.name.getD ""
    match renameElems tid nm bpmn.elements with
    | some es => .ok { bpmn with elements := es }
    | none =>
      match renameFlows tid nm bpmn.flows with
      | some fs => .ok { bpmn with flows := fs }
      | none => .ok bpmn

def convertElems (tid ty : String) : List BPMNElement → Option (List BPMNElement)
  | [] => none
  | e :: rest =>
    if e.id = tid then some ({ e with type := ty } :: rest)
    else (convertElems tid ty rest).map (e :: ·)

/-- `_convert`: `args.get("type").replace(...)` raises on a missing
type; sets `type` on the first matching element without re-validation,
silently unchanged when absent. -/
def convert (bpmn : BPMNJSON) (args : PatchArgs) : Except String BPMNJSON :=
  match args.type with
  | none => .error "AttributeError: NoneType has no attribute replace"
  | some t =>
    let newType := pyReplace t "bpmn:" ""
    if ¬ truthy args.id ∨ newType.isEmpty then .error "Convert requires id and type"
    else
      match convertElems (args.id.getD "") newType bpmn.elements with
      | some es => .ok { bpmn with elements := es }
      | none => .ok bpmn

def moveElems (tid lid : String) : List BPMNElement → Option (List BPMNElement)
  | [] => none
  | e :: rest =>
    if e.id = tid then some ({ e with laneId := some lid } :: rest)
    else (moveElems tid lid rest).map (e :: ·)

/-- `_move_to_lane`. -/
def moveToLane (bpmn : BPMNJSON) (args : PatchArgs) : Except String BPMNJSON :=
  if ¬ truthy args.id ∨ ¬ truthy args.laneId then .error "Move to lane requires id and laneId"
  else
    match moveElems (args.id.getD "") (args.laneId.getD "") bpmn.elements with
    | some es => .ok { bpmn with elements := es }
    | none => .ok bpmn

/-- `_set_property` is `pass` in the source. -/
def setProperty (bpmn : BPMNJSON) (_args : PatchArgs) : Except String BPMNJSON := .ok bpmn

/-- `apply_patch`: dispatch on `op`, unknown operations raise. -/
def applyPatch (bpmn : BPMNJSON) (patch : Patch) (hex8 : String) : Except String BPMNJSON :=
  if patch.op = "add_node" then addNode bpmn patch.args hex8
  else if patch.op = "connect" then connect bpmn patch.args hex8
  else if patch.op = "remove" then remove bpmn patch.args
  else if patch.op = "rename" then rename bpmn patch.args
  else if patch.op = "convert" then convert bpmn patch.args
  else if patch.op = "move_to_lane" then moveToLane bpmn patch.args
  else if patch.op = "set_property" then setProperty bpmn patch.args
  else .error ("Unknown operation: " ++ patch.op)

end BpmnPatchService

/-! ## Linter

`apps/api/app/services/agents/linter.py` (`BpmnLinter.lint`).  The
Python builds `incoming_map`/`outgoing_map` dictionaries keyed by the
element-id set; the maps are only ever read at element ids, where the
stored count equals the number of flows with that source/target, so the
counts are embedded directly as filters. -/

def outgoingCount (bpmn : BPMNJSON) (nid : String) : Nat :=
  (bpmn.flows.filter fun e => e.source = nid).length

def incomingCount (bpmn : BPMNJSON) (nid : String) : Nat :=
  (bpmn.flows.filter fun e => e.target = nid).length

/-- `node.name or node.id` (an empty or missing name is falsy). -/
def displayName (n : BPMNElement) : String :=
  if truthy n.name then n.name.getD "" else n.id

def fanoutMsg (n : BPMNElement) : String :=
  "Exclusive Gateway '" ++ displayName n ++ "' must have at least 2 outgoing paths"

def isStartEventType (t : String) : Bool := t = "startEvent" ∨ t = "bpmn:StartEvent"
def isEndEventType (t : String) : Bool := t = "endEvent" ∨ t = "bpmn:EndEvent"
def isComplexGatewayType (t : String) : Bool := t = "complexGateway" ∨ t = "bpmn:ComplexGateway"
def isExclusiveGatewayType (t : String) : Bool := t = "exclusiveGateway" ∨ t = "bpmn:ExclusiveGateway"

/-- Connectivity messages for one node (rule 4 of the linter). -/
def connectivityMsgs (bpmn : BPMNJSON) (n : BPMNElement) : List String :=
  let t := pyReplace n.type "bpmn:" ""
  if t = "startEvent" then
    if outgoingCount bpmn n.id = 0 then
      ["Start Event '" ++ displayName n ++ "' is not connected to anything"]
    else []
  else if t = "endEvent" then
    if incomingCount bpmn n.id = 0 then
      ["End Event '" ++ displayName n ++ "' is unreachable"]
    else []
  else
    (if incomingCount bpmn n.id = 0 then
      ["Node '" ++ displayName n ++ "' is unreachable (no incoming flows)"]
     else []) ++
    (if outgoingCount bpmn n.id = 0 then
      ["Node '" ++ displayName n ++ "' is a dead end (no outgoing flows)"]
     else [])

/-- `BpmnLinter.lint`. -/
def lint (bpmn : BPMNJSON) : List String :=
  let nodes := bpmn.elements
  let startEvents := nodes.filter fun n => isStartEventType n.type
  let endEvents := nodes.filter fun n => isEndEventType n.type
  let e1 := if startEvents.isEmpty then ["Process must have at least one Start Event"] else []
  let e2 := if endEvents.isEmpty then ["Process must have at least one End Event"] else []
  let complexGateways := nodes.filter fun n => isComplexGatewayType n.type
  let e3 := if !complexGateways.isEmpty then ["Complex Gateways are not supported"] else []
  let exclusiveGateways := nodes.filter fun n => isExclusiveGatewayType n.type
  let e4 := exclusiveGateways.filterMap fun g =>
    if outgoingCount bpmn g.id < 2 then some (fanoutMsg g) else none
  let e5 := (nodes.map fun n => connectivityMsgs bpmn n).flatten
  e1 ++ e2 ++ e3 ++ e4 ++ e5

/-! ## Name resolution

`resolve_names_to_ids` in `apps/api/app/api/v1/edit.py`.  The Python
dict is embedded as a lookup function `String → Option String`; each
insertion shadows earlier ones, so the element-id pass (which runs
second) wins over the name pass on key collisions, and within a pass
later elements win. -/

def dictInsert (m : String → Option String) (k v : String) : String → Option String :=
  fun q => if q = k then some v else m q

/-- `name_to_id`: the `{n.name.lower(): n.id for n in elements if n.name}`
comprehension, then `name_to_id[n.id.lower()] = n.id` for every element. -/
def buildNameToId (bpmn : BPMNJSON) : String → Option String :=
  let m1 := bpmn.elements.foldl
    (fun m n => if truthy n.name then dictInsert m (asciiLower (n.name.getD "")) n.id else m)
    (fun _ => none)
  bpmn.elements.foldl (fun m n => dictInsert m (asciiLower n.id) n.id) m1

/-- A lookup as the resolver performs it: the query is lowercased, then
looked up in `name_to_id`. -/
def lookupName (bpmn : BPMNJSON) (raw : String) : Option String :=
  buildNameToId bpmn (asciiLower raw)

/-- `resolve_names_to_ids`: rewrites `*_by_name` operations to
id-addressed ones, raising `HTTPException` (an `Except.error` here) when
a name does not resolve; any other operation passes through unchanged.
It never mutates the document. -/
def resolveNamesToIds (bpmn : BPMNJSON) (patch : Patch) : Except String Patch :=
  let args := patch.args
  if patch.op = "connect_by_name" then
    let source := asciiLower (args.sourceName.getD "")
    let target := asciiLower (args.targetName.getD "")
    let sId := buildNameToId bpmn source
    let tId := buildNameToId bpmn target
    if truthy sId ∧ truthy tId then
      .ok { op := "connect", args := { sourceId := sId, targetId := tId } }
    else
      .error ("Could not find nodes for connection: " ++ source ++ " -> " ++ target)
  else if patch.op = "remove_by_name" then
    let name := asciiLower (args.name.getD "")
    let tId := buildNameToId bpmn name
    if truthy tId then .ok { op := "remove", args := { id := tId } }
    else .error ("Could not find node to remove: " ++ name)
  else if patch.op = "rename_by_name" then
    let oldName := asciiLower (args.oldName.getD "")
    let tId := buildNameToId bpmn oldName
    if truthy tId then .ok { op := "rename", args := { id := tId, name := args.newName } }
    else .error ("Could not find node to rename: " ++ oldName)
  else if patch.op = "convert_by_name" then
    let name := asciiLower (args.name.getD "")
    let tId := buildNameToId bpmn name
    if truthy tId then .ok { op := "convert", args := { id := tId, type := args.type } }
    else .error ("Could not find node to convert: " ++ name)
  else if patch.op = "set_property_by_name" then
    let name := asciiLower (args.name.getD "")
    let tId := buildNameToId bpmn name
    if truthy tId then
      .ok { op := "set_property", args := { id := tId, key := args.key, value := args.value } }
    else .error ("Could not find node to set property: " ++ name)
  else
    .ok patch

/-- The resolve-then-apply sequence of the `edit_bpmn` endpoint (steps
2 and 3): resolution runs to completion before the patch service ever
sees the document, so a resolution error leaves no mutation. -/
def applyResolvedPatch (bpmn : BPMNJSON) (patch : Patch) (hex8 : String) :
    Except String BPMNJSON :=
  (resolveNamesToIds bpmn patch).bind fun p => BpmnPatchService.applyPatch bpmn p hex8

/-! ## Deterministic command interpreter

`CommandInterpreter.interpret` in `apps/api/app/api/v1/edit.py`: an
ordered list of `re.search` pattern rules over the lowercased, stripped
command.  The regexes used are sequences of literals, optional pieces
(`(?: )?`, `['\"]?`), a two-way alternation and greedy `([^'\"]+)`
captures, embedded here as token lists with a backtracking matcher.
The matcher takes fuel (one unit per attempted step; `reSearch`
supplies a generous bound) so it stays structurally recursive; the
bound is never reached on the pattern/command sizes involved. -/

inductive PatTok where
  | lit (s : String)
  | opt (s : String)
  | alt2 (a b : String)
  | optQuote
  | capture
  | captureTake (k : Nat)
deriving DecidableEq

def isQuoteChar (c : Char) : Bool := c = '\'' ∨ c = '"'

/-- Backtracking matcher for one start position.  `capture` is
expanded to `captureTake k` which tries the greedy `[^'\"]+` take
lengths from longest to shortest, exactly the order in which Python's
backtracking engine tries them. -/
def matchToks : Nat → List PatTok → List Char → Option (List String)
  | 0, _, _ => none
  | _ + 1, [], _ => some []
  | fuel + 1, .lit s :: toks, cs =>
    if s.data.isPrefixOf cs then matchToks fuel toks (cs.drop s.data.length) else none
  | fuel + 1, .opt s :: toks, cs =>
    (if s.data.isPrefixOf cs then matchToks fuel toks (cs.drop s.data.length) else none) <|>
      matchToks fuel toks cs
  | fuel + 1, .alt2 a b :: toks, cs =>
    (if a.data.isPrefixOf cs then matchToks fuel toks (cs.drop a.data.length) else none) <|>
      (if b.data.isPrefixOf cs then matchToks fuel toks (cs.drop b.data.length) else none)
  | fuel + 1, .optQuote :: toks, cs =>
    (match cs with
     | c :: rest => if isQuoteChar c then matchToks fuel toks rest else none
     | [] => none) <|>
      matchToks fuel toks cs
  | fuel + 1, .capture :: toks, cs =>
    matchToks fuel (.captureTake (cs.takeWhile fun c => !isQuoteChar c).length :: toks) cs
  | _ + 1, .captureTake 0 :: _, _ => none
  | fuel + 1, .captureTake (k + 1) :: toks, cs =>
    (match matchToks fuel toks (cs.drop (k + 1)) with
     | some caps => some (String.mk (cs.take (k + 1)) :: caps)
     | none => none) <|>
      matchToks fuel (.captureTake k :: toks) cs

/-- `re.search`: leftmost start position whose match succeeds. -/
def searchFrom (pat : List PatTok) : List Char → Option (List String)
  | [] => matchToks ((pat.length + 1) * 2) pat []
  | c :: rest =>
    matchToks ((pat.length + 1) * ((c :: rest).length + 2) * 2) pat (c :: rest) <|>
      searchFrom pat rest

def reSearch (pat : List PatTok) (s : String) : Option (List String) := searchFrom pat s.data

def noopPatch : Patch := { op := "noop" }

/-- Rule 1: `add (?:a )?(?:user )?task (?:called|named) ['\"]?([^'\"]+)['\"]?`. -/
def ruleAddTask (c : String) : Option Patch :=
  match reSearch [.lit "add ", .opt "a ", .opt "user ", .lit "task ", .alt2 "called" "named",
                  .lit " ", .optQuote, .capture, .optQuote] c with
  | some [name] =>
    some { op := "add_node",
           args := { type := some (if strContains c "user task" then "bpmn:UserTask" else "bpmn:Task"),
                     name := some name, x := some 200, y := some 200 } }
  | _ => none

/-- Rule 2: `"add" in command and "start event" in command`. -/
def ruleAddStart (c : String) : Option Patch :=
  if strContains c "add" ∧ strContains c "start event" then
    some { op := "add_node",
           args := { type := some "bpmn:StartEvent", name := some "Start",
                     x := some 50, y := some 200 } }
  else none

/-- Rule 3: `"add" in command and "end event" in command`. -/
def ruleAddEnd (c : String) : Option Patch :=
  if strContains c "add" ∧ strContains c "end event" then
    some { op := "add_node",
           args := { type := some "bpmn:EndEvent", name := some "End",
                     x := some 500, y := some 200 } }
  else none

/-- Rule 4: `connect ['\"]?([^'\"]+)['\"]? to ['\"]?([^'\"]+)['\"]?`. -/
def ruleConnect (c : String) : Option Patch :=
  match reSearch [.lit "connect ", .optQuote, .capture, .optQuote, .lit " to ",
                  .optQuote, .capture, .optQuote] c with
  | some [a, b] =>
    some { op := "connect_by_name", args := { sourceName := some a, targetName := some b } }
  | _ => none

/-- Rule 5: `remove ['\"]?([^'\"]+)['\"]?`. -/
def ruleRemove (c : String) : Option Patch :=
  match reSearch [.lit "remove ", .optQuote, .capture, .optQuote] c with
  | some [name] => some { op := "remove_by_name", args := { name := some name } }
  | _ => none

/-- Rule 6: `rename ['\"]?([^'\"]+)['\"]? to ['\"]?([^'\"]+)['\"]?`. -/
def ruleRename (c : String) : Option Patch :=
  match reSearch [.lit "rename ", .optQuote, .capture, .optQuote, .lit " to ",
                  .optQuote, .capture, .optQuote] c with
  | some [a, b] =>
    some { op := "rename_by_name", args := { oldName := some a, newName := some b } }
  | _ => none

/-- Rule 7: `convert ['\"]?([^'\"]+)['\"]? to (?:exclusive )?gateway`. -/
def ruleConvert (c : String) : Option Patch :=
  match reSearch [.lit "convert ", .optQuote, .capture, .optQuote, .lit " to ",
                  .opt "exclusive ", .lit "gateway"] c with
  | some [name] =>
    some { op := "convert_by_name",
           args := { name := some name, type := some "bpmn:ExclusiveGateway" } }
  | _ => none

/-- Rule 8: `move ['\"]?([^'\"]+)['\"]? to lane ['\"]?([^'\"]+)['\"]?`. -/
def ruleMoveToLane (c : String) : Option Patch :=
  match reSearch [.lit "move ", .optQuote, .capture, .optQuote, .lit " to lane ",
                  .optQuote, .capture, .optQuote] c with
  | some [a, b] =>
    some { op := "move_to_lane_by_name", args := { nodeName := some a, laneName := some b } }
  | _ => none

/-- Rule 9: `set property ['\"]?([^'\"]+)['\"]? to ['\"]?([^'\"]+)['\"]? on ['\"]?([^'\"]+)['\"]?`. -/
def ruleSetProperty (c : String) : Option Patch :=
  match reSearch [.lit "set property ", .optQuote, .capture, .optQuote, .lit " to ",
                  .optQuote, .capture, .optQuote, .lit " on ", .optQuote, .capture,
                  .optQuote] c with
  | some [key, value, name] =>
    some { op := "set_property_by_name",
           args := { name := some name, key := some key, value := some value } }
  | _ => none

/-- Rule 10: `"add" in command and "parallel gateway" in command`. -/
def ruleAddParallel (c : String) : Option Patch :=
  if strContains c "add" ∧ strContains c "parallel gateway" then
    some { op := "add_node",
           args := { type := some "bpmn:ParallelGateway", name := some "Parallel",
                     x := some 300, y := some 200 } }
  else none

/-- Rule 11: `"add" in command and "exclusive gateway" in command`. -/
def ruleAddExclusive (c : String) : Option Patch :=
  if strContains c "add" ∧ strContains c "exclusive gateway" then
    some { op := "add_node",
           args := { type := some "bpmn:ExclusiveGateway", name := some "Decision",
                     x := some 300, y := some 200 } }
  else none

/-- The pattern rules in the order `interpret` tries them. -/
def interpreterRules : List (String → Option Patch) :=
  [ruleAddTask, ruleAddStart, ruleAddEnd, ruleConnect, ruleRemove, ruleRename,
   ruleConvert, ruleMoveToLane, ruleSetProperty, ruleAddParallel, ruleAddExclusive]

/-- The body of `interpret` after `command.lower().strip()`: the
if/return chain of the source. -/
def interpretCore (c : String) : Patch :=
  match ruleAddTask c with
  | some p => p
  | none =>
    match ruleAddStart c with
    | some p => p
    | none =>
      match ruleAddEnd c with
      | some p => p
      | none =>
        match ruleConnect c with
        | some p => p
        | none =>
          match ruleRemove c with
          | some p => p
          | none =>
            match ruleRename c with
            | some p => p
            | none =>
              match ruleConvert c with
              | some p => p
              | none =>
                match ruleMoveToLane c with
                | some p => p
                | none =>
                  match ruleSetProperty c with
                  | some p => p
                  | none =>
                    match ruleAddParallel c with
                    | some p => p
                    | none =>
                      match ruleAddExclusive c with
                      | some p => p
                      | none => noopPatch

/-- `CommandInterpreter.interpret`. -/
def interpret (command : String) : Patch := interpretCore (pyStrip (asciiLower command))

/-! ## Optimistic locking: the edit use case

`EditBpmnUseCase.execute` in
`apps/api/app/application/bpmn/edit_bpmn.py`.  On a conflicting
`if_match` it executes `raise ConflictError(message=..., your_etag=...,
current_etag=...)` with the `ConflictError` of
`apps/api/app/api/governance.py` — but that class is a pydantic
`BaseModel`, not an exception, so CPython constructs the instance and
then the `raise` statement itself fails with
`TypeError: exceptions must derive from BaseException`; the constructed
payload is discarded and never reaches the caller.  The use case
delegates actual patching and linting to injected services
(`app.infrastructure.services.*`, whose patch/lint modules are not part
of this tree), so `execute` is parametrized by those two functions; the
conflict check itself is fully concrete. -/

/-- The `ConflictError` pydantic model of
`apps/api/app/api/governance.py` (the module the use case imports; note
its `options` default, without `view_diff`; the variant in
`apps/api/app/schemas/governance.py` additionally lists `view_diff`).
The conflict branch instantiates this model and then fails to `raise`
it, so no value of this type ever escapes `execute`.  `datetime` fields
are kept as optional strings; the use case never sets them. -/
structure ConflictError where
  error : String := "Edit conflict detected"
  message : String
  your_etag : String
  current_etag : String
  last_modified_by : Option String := none
  last_modified_at : Option String := none
  options : List String := ["overwrite", "save_as_copy"]
deriving DecidableEq

/-- The exceptions that actually propagate out of `execute`: the
`TypeError` produced by raising a non-`BaseException` value, and a
failure of the injected patch service. -/
inductive EditError where
  | typeError (msg : String)
  | patchFailure (msg : String)
deriving DecidableEq

structure EditBpmnResult where
  updated_bpmn_json : BPMNJSON
  change_description : String
  lint_errors : List String
deriving DecidableEq

/-- The part of `execute` after the optimistic-locking check: apply the
patch, lint, and describe the change. -/
def editProceed (patchFn : BPMNJSON → Patch → Except String BPMNJSON)
    (lintFn : BPMNJSON → List String) (current : BPMNJSON) (patch : Patch) :
    Except EditError EditBpmnResult :=
  match patchFn current patch with
  | .error e => .error (.patchFailure e)
  | .ok updated =>
    .ok { updated_bpmn_json := updated,
          change_description := "Applied patch: " ++ patch.op,
          lint_errors := lintFn updated }

/-- `EditBpmnUseCase.execute`: when a truthy `if_match` is supplied,
compare it against `sha256(json.dumps(current or {}, sort_keys=True,
separators=(",", ":")))`; on mismatch the `raise
ConflictError(message=..., your_etag=..., current_etag=...)` statement
aborts the call with `TypeError: exceptions must derive from
BaseException` (the model instance it built is discarded), so no result
— hence no new version — is produced on conflict. -/
def EditBpmnUseCase.execute (patchFn : BPMNJSON → Patch → Except String BPMNJSON)
    (lintFn : BPMNJSON → List String) (current : BPMNJSON) (patch : Patch)
    (ifMatch : Option String) : Except EditError EditBpmnResult :=
  if truthy ifMatch then
    let currentEtag := computeEtag (docToJson current)
    if ifMatch.getD "" ≠ currentEtag then
      .error (.typeError "exceptions must derive from BaseException")
    else editProceed patchFn lintFn current patch
  else editProceed patchFn lintFn current patch

/-! ## Version entity

`ModelVersion` and its `create` factory in
`apps/api/app/domain/entities/version.py`, and
`RestoreVersionUseCase._compute_etag` in
`apps/api/app/application/versioning/restore_version.py`.
`datetime.utcnow()` is an external input, passed as `now`. -/

structure ModelVersion where
  id : String
  process_id : String
  version_number : Nat
  version_label : Option String
  commit_message : Option String
  change_type : String
  parent_version_id : Option String
  bpmn_json : Json
  generation_method : String
  source_artifact_ids : List String
  generation_prompt : Option String
  status : String
  is_active : Bool
  etag : Option String
  quality_score : Option Nat
  created_at : String
  created_by : String

def ModelVersion.create (process_id : String) (version_number : Nat) (bpmn_json : Json)
    (generation_method : String := "manual_edit") (version_label : Option String := none)
    (commit_message : Option String := none) (change_type : String := "minor")
    (parent_version_id : Option String := none)
    (source_artifact_ids : Option (List String) := none)
    (generation_prompt : Option String := none) (is_active : Bool := false)
    (now : String := "") : ModelVersion :=
  let etag := computeEtag bpmn_json
  let label := if truthy version_label then version_label.getD "" else "v" ++ toString version_number
  { id := "", process_id, version_number, version_label := some label, commit_message,
    change_type, parent_version_id, bpmn_json, generation_method,
    source_artifact_ids := source_artifact_ids.getD [], generation_prompt,
    status := "ready", is_active, etag := some etag, quality_score := none,
    created_at := now, created_by := "local-user" }

/-- `RestoreVersionUseCase._compute_etag`. -/
def restoreComputeEtag (payload : Json) : String := computeEtag payload

/-! ## XML codec

Export: `to_bpmn_xml` in `apps/api/app/services/bpmn/json_to_xml.py`;
import: `to_bpmn_json` in
`apps/api/app/infrastructure/services/bpmn/xml_to_json.py`.

Both sides work on an `xml.etree.ElementTree` tree, so the codec is
embedded at the tree level.  ElementTree writes a namespaced tag as
`"{uri}localname"`, which is how `XmlNode.tag` stores it, and resolves
`"bpmn:tag"` search patterns through the namespace map to the same
form.  Attribute values are `Option String` because the exporter
stores `el.get("name", "")` of a `model_dump()` dict, which is `None`
for an element without a name — ElementTree accepts a `None` attribute
value in the in-memory tree, but `ET.tostring` refuses to serialize
it (`serializableN`/`serializeTree` below), so the XML string the
exporter returns exists only for trees whose attribute values are all
strings, and on those serializing and re-parsing is the identity.
`uuid` suffixes are parameters. -/

mutual

inductive XmlNode where
  | mk (tag : String) (attrs : List (String × Option String)) (children : XmlNodeList)
      (text : Option String)

inductive XmlNodeList where
  | nil
  | cons (hd : XmlNode) (tl : XmlNodeList)

end

def XmlNodeList.ofList : List XmlNode → XmlNodeList
  | [] => .nil
  | x :: xs => .cons x (XmlNodeList.ofList xs)

def XmlNodeList.toList : XmlNodeList → List XmlNode
  | .nil => []
  | .cons x xs => x :: XmlNodeList.toList xs

/-- Build a node from a plain `List` of children. -/
def XmlNode.make (tag : String) (attrs : List (String × Option String))
    (children : List XmlNode) (text : Option String) : XmlNode :=
  .mk tag attrs (XmlNodeList.ofList children) text

def XmlNode.tag : XmlNode → String
  | .mk t _ _ _ => t

def XmlNode.attrs : XmlNode → List (String × Option String)
  | .mk _ a _ _ => a

def XmlNode.children : XmlNode → List XmlNode
  | .mk _ _ c _ => c.toList

def XmlNode.text : XmlNode → Option String
  | .mk _ _ _ t => t

/-- `elem.get(key)`: an attribute stored as `None` and an absent
attribute both read back as `None`. -/
def XmlNode.get (n : XmlNode) (k : String) : Option String :=
  match n.attrs.find? fun p => p.1 = k with
  | some p => p.2
  | none => none

mutual

/-- `element.findall(".//tag")`: all proper descendants with the tag,
in document order. -/
def descendants (tag : String) : XmlNode → List XmlNode
  | .mk _ _ children _ => descendantsL tag children

def descendantsL (tag : String) : XmlNodeList → List XmlNode
  | .nil => []
  | .cons c rest =>
    (if c.tag = tag then [c] else []) ++ descendants tag c ++ descendantsL tag rest

end

/-- ElementTree's `"{uri}local"` form of a BPMN-MODEL-namespaced tag. -/
def nsB (t : String) : String :=
  "\x7bhttp://www.omg.org/spec/BPMN/20100524/MODEL\x7d" ++ t

def incomingNode (fid : Option String) : XmlNode := .make (nsB "incoming") [] [] fid

def outgoingNode (fid : Option String) : XmlNode := .make (nsB "outgoing") [] [] fid

/-- One process-level node per element: tag is the `type` string, with
`incoming`/`outgoing` children computed from the flow list
(`node_flows`). -/
def elementNode (d : BPMNJSON) (el : BPMNElement) : XmlNode :=
  .make (nsB el.type) [("id", some el.id), ("name", el.name)]
    (((d.flows.filter fun f => f.target = el.id).map fun f => incomingNode f.id) ++
      ((d.flows.filter fun f => f.source = el.id).map fun f => outgoingNode f.id)) none

def seqFlowNode (f : SequenceFlow) : XmlNode :=
  .make (nsB "sequenceFlow")
    [("id", f.id), ("sourceRef", some f.source), ("targetRef", some f.target)] [] none

mutual

/-- `ET.tostring` serializability: `_escape_attrib` raises
`TypeError("cannot serialize None (type NoneType)")` on an attribute
whose value is `None` (a `None` `.text` is fine: the element is just
written empty), so a tree serializes iff every attribute value in it
is a string. -/
def serializableN : XmlNode → Bool
  | .mk _ attrs children _ => (attrs.all fun p => p.2.isSome) && serializableL children

def serializableL : XmlNodeList → Bool
  | .nil => true
  | .cons c rest => serializableN c && serializableL rest

end

/-- The node tags `to_bpmn_json` enumerates. -/
def importNodeTypes : List String :=
  ["startEvent", "endEvent", "task", "userTask", "serviceTask",
   "exclusiveGateway", "parallelGateway"]

/-- `BPMNElement(id=elem.get("id"), type=tag, name=elem.get("name"))`
with pydantic's requirement that `id` is a string. -/
def importElement (tp : String × XmlNode) : Except String BPMNElement :=
  match tp.2.get "id" with
  | some i => .ok { id := i, type := tp.1, name := tp.2.get "name" }
  | none => .error "BPMNElement requires id"

/-- `SequenceFlow(id=..., source=elem.get("sourceRef"), ...)` with
pydantic's requirement that `source`/`target` are strings. -/
def importFlow (e : XmlNode) : Except String SequenceFlow :=
  match e.get "sourceRef", e.get "targetRef" with
  | some s, some t =>
    .ok { id := e.get "id", source := s, target := t, type := "sequenceFlow",
          name := e.get "name" }
  | _, _ => .error "SequenceFlow requires source and target"

lemma jsonOr_obj (fs : JsonFields) : jsonOr (.obj fs) = .obj fs := by
  cases fs <;> rfl

lemma truthy_some_of_ne (s : String) (h : s ≠ "") : truthy (some s) = true := by
  cases hq : s.isEmpty with
  | false => simp [truthy, hq]
  | true => exact absurd ((String.isEmpty_iff s).mp hq) h

def c1Doc : BPMNJSON := { process := { id := "P1" }, elements := [], flows := [] }

def c5Doc : BPMNJSON :=
  { process := { id := "P1" }, elements := [{ id := "a", type := "task" }], flows := [] }

def c7Doc : BPMNJSON :=
  { process := { id := "P1" }, elements := [{ id := "x", type := "task" }],
    flows := [{ id := some "f", source := "x", target := "x" }] }

def c10Doc : BPMNJSON := { process := { id := "P1" }, elements := [], flows := [] }

lemma renameElems_eq_none (tid nm : String) (l : List BPMNElement)
    (h : ∀ e ∈ l, e.id ≠ tid) : BpmnPatchService.renameElems tid nm l = none := by
  induction l with
  | nil => rfl
  | cons e rest ih =>
    have he : e.id ≠ tid := h e (List.mem_cons_self e rest)
    simp only [BpmnPatchService.renameElems, if_neg he]
    rw [ih fun x hx => h x (List.mem_cons_of_mem e hx)]
    rfl

lemma renameElems_first (tid nm : String) (pre : List BPMNElement) (e : BPMNElement)
    (post : List BPMNElement) (hpre : ∀ x ∈ pre, x.id ≠ tid) (he : e.id = tid) :
    BpmnPatchService.renameElems tid nm (pre ++ e :: post) =
      some (pre ++ { e with name := some nm } :: post) := by
  induction pre with
  | nil => simp [BpmnPatchService.renameElems, he]
  | cons x rest ih =>
    have hx : x.id ≠ tid := hpre x (List.mem_cons_self x rest)
    simp only [List.cons_append, BpmnPatchService.renameElems, if_neg hx, List.append_eq]
    rw [ih fun y hy => hpre y (List.mem_cons_of_mem x hy)]
    rfl

lemma renameFlows_eq_none (tid nm : String) (l : List SequenceFlow)
    (h : ∀ f ∈ l, f.id ≠ some tid) : BpmnPatchService.renameFlows tid nm l = none := by
  induction l with
  | nil => rfl
  | cons f rest ih =>
    have hf : f.id ≠ some tid := h f (List.mem_cons_self f rest)
    simp only [BpmnPatchService.renameFlows, if_neg hf]
    rw [ih fun x hx => h x (List.mem_cons_of_mem f hx)]
    rfl

lemma renameFlows_first (tid nm : String) (pre : List SequenceFlow) (f : SequenceFlow)
    (post : List SequenceFlow) (hpre : ∀ x ∈ pre, x.id ≠ some tid) (hf : f.id = some tid) :
    BpmnPatchService.renameFlows tid nm (pre ++ f :: post) =
      some (pre ++ { f with name := some nm } :: post) := by
  induction pre with
  | nil => simp [BpmnPatchService.renameFlows, hf]
  | cons x rest ih =>
    have hx : x.id ≠ some tid := hpre x (List.mem_cons_self x rest)
    simp only [List.cons_append, BpmnPatchService.renameFlows, if_neg hx, List.append_eq]
    rw [ih fun y hy => hpre y (List.mem_cons_of_mem x hy)]
    rfl

/-! ### C1 — optimistic-locking conflict -/

set_option maxRecDepth 100000 in
/-- C1: the conflict branch is broken in the code.  On an edit of
`c1Doc` whose supplied `ifMatch` `"E0"` differs from the current etag,
`execute` does not produce the claimed `ConflictError` rejection
carrying the two fingerprints and the resolution hints: the `raise` of
the pydantic `ConflictError` model itself aborts with
`TypeError: exceptions must derive from BaseException`, with no payload
— and no result, hence no new version.  An edit whose `ifMatch` equals
the current etag, and one that supplies no `ifMatch`, both proceed to
the patch/lint stage, as claimed. -/
theorem C1_conflict_bug :
    (EditBpmnUseCase.execute (fun d _ => .ok d) (fun _ => []) c1Doc noopPatch (some "E0") =
      .error (.typeError "exceptions must derive from BaseException")) ∧
    (EditBpmnUseCase.execute (fun d _ => .ok d) (fun _ => []) c1Doc noopPatch
        (some (computeEtag (docToJson c1Doc))) =
      editProceed (fun d _ => .ok d) (fun _ => []) c1Doc noopPatch) ∧
    (EditBpmnUseCase.execute (fun d _ => .ok d) (fun _ => []) c1Doc noopPatch none =
      editProceed (fun d _ => .ok d) (fun _ => []) c1Doc noopPatch) := by
  refine ⟨by decide, by decide, by decide⟩

/-! ### C5 — connect does not validate node existence -/

/-- C5 counterexample: connecting existing `"a"` to nonexistent
`"ghost"` raises no `UnknownNodeError`; the flow is appended anyway. -/
theorem C5_counterexample :
    BpmnPatchService.applyPatch c5Doc
        { op := "connect", args := { sourceId := some "a", targetId := some "ghost" } }
        "deadbeef" =
      .ok { c5Doc with
            flows := [{ id := some "Flow_deadbeef", source := "a", target := "ghost",
                        type := "sequenceFlow", name := some "" }] } ∧
    "ghost" ∉ c5Doc.elements.map (fun e => e.id) := by
  decide

/-- C5 (amended): `connect` requires non-empty `sourceId` and
`targetId` (else a `ValueError`, not an `UnknownNodeError`), but does
not check that either id names an existing element — for every
document, including ones where the ids are dangling, it appends a new
flow with generated id `Flow_<hex8>`, leaving the elements unchanged. -/
theorem C5_connect_amended (d : BPMNJSON) (args : PatchArgs) (hex8 : String) :
    (truthy args.sourceId = true ∧ truthy args.targetId = true →
      BpmnPatchService.applyPatch d { op := "connect", args := args } hex8 =
        .ok { d with
              flows := d.flows ++
                [{ id := some ("Flow_" ++ hex8), source := args.sourceId.getD "",
                   target := args.targetId.getD "", type := "sequenceFlow",
                   name := some (args.name.getD "") }] }) ∧
    (¬ (truthy args.sourceId = true ∧ truthy args.targetId = true) →
      BpmnPatchService.applyPatch d { op := "connect", args := args } hex8 =
        .error "Connect requires sourceId and targetId") := by
  constructor
  · rintro ⟨hs, ht⟩
    simp [BpmnPatchService.applyPatch, BpmnPatchService.connect, hs, ht]
  · intro h
    rcases not_and_or.mp h with h' | h' <;>
      simp [BpmnPatchService.applyPatch, BpmnPatchService.connect, h']

/-- C5 witness. -/
theorem C5_connect_amended_witness :
    (BpmnPatchService.applyPatch c5Doc
        { op := "connect", args := { sourceId := some "a", targetId := some "a" } } "ff00ff00" =
      .ok { c5Doc with
            flows := [{ id := some "Flow_ff00ff00", source := "a", target := "a",
                        type := "sequenceFlow", name := some "" }] }) ∧
    (BpmnPatchService.applyPatch c5Doc { op := "connect", args := { sourceId := some "a" } }
        "ff00ff00" =
      .error "Connect requires sourceId and targetId") :=
  ⟨(C5_connect_amended c5Doc { sourceId := some "a", targetId := some "a" } "ff00ff00").1
      (by decide),
   (C5_connect_amended c5Doc { sourceId := some "a" } "ff00ff00").2 (by decide)⟩

/-! ### C6 — etag scheme -/

/-- C6: the etag stored by `ModelVersion.create` (and the one
`RestoreVersionUseCase._compute_etag` computes) is the SHA-256 hex
digest of the canonical JSON serialization of the document object
(keys sorted, separators `","`/`":"`), so equal canonical JSON gives
equal etags. -/
theorem C6_etag_scheme :
    (∀ (pid : String) (vn : Nat) (fs : JsonFields) (gm : String) (vl cm : Option String)
      (ct : String) (pv : Option String) (sa : Option (List String)) (gp : Option String)
      (ia : Bool) (now : String),
      (ModelVersion.create pid vn (.obj fs) gm vl cm ct pv sa gp ia now).etag =
        some (sha256Hex (utf8Bytes (canonicalDumps (.obj fs))))) ∧
    (∀ fs : JsonFields,
      restoreComputeEtag (.obj fs) = sha256Hex (utf8Bytes (canonicalDumps (.obj fs)))) ∧
    (∀ fs1 fs2 : JsonFields, canonicalDumps (.obj fs1) = canonicalDumps (.obj fs2) →
      ∀ (pid1 pid2 : String) (vn1 vn2 : Nat) (gm : String) (vl cm : Option String)
        (ct : String) (pv : Option String) (sa : Option (List String)) (gp : Option String)
        (ia : Bool) (now : String),
        (ModelVersion.create pid1 vn1 (.obj fs1) gm vl cm ct pv sa gp ia now).etag =
          (ModelVersion.create pid2 vn2 (.obj fs2) gm vl cm ct pv sa gp ia now).etag) := by
  refine ⟨?_, ?_, ?_⟩
  · intro pid vn fs gm vl cm ct pv sa gp ia now
    simp [ModelVersion.create, computeEtag, jsonOr_obj]
  · intro fs
    simp [restoreComputeEtag, computeEtag, jsonOr_obj]
  · intro fs1 fs2 h pid1 pid2 vn1 vn2 gm vl cm ct pv sa gp ia now
    simp [ModelVersion.create, computeEtag, jsonOr_obj, h]

/-- C6 witness. -/
theorem C6_etag_scheme_witness :
    ((ModelVersion.create "p" 1 (.obj .nil) "manual_edit" none none "minor" none none none
        false "").etag = some (sha256Hex (utf8Bytes (canonicalDumps (.obj .nil))))) ∧
    ((ModelVersion.create "p" 1 (.obj .nil) "manual_edit" none none "minor" none none none
          false "").etag =
      (ModelVersion.create "q" 2 (.obj .nil) "manual_edit" none none "minor" none none none
          false "").etag) :=
  ⟨C6_etag_scheme.1 "p" 1 .nil "manual_edit" none none "minor" none none none false "",
   C6_etag_scheme.2.2 .nil .nil rfl "p" "q" 1 2 "manual_edit" none none "minor" none none
     none false ""⟩

/-! ### C7 — rename of a missing id is silent -/

/-- C7 counterexample: renaming nonexistent id `"zzz"` succeeds and
returns the document unchanged instead of failing with a
`NotFoundError`. -/
theorem C7_counterexample :
    BpmnPatchService.applyPatch c7Doc
        { op := "rename", args := { id := some "zzz", name := some "n" } } "h" =
      .ok c7Doc := by
  decide

/-- C7 (amended): `rename` sets `name` on the first element with the
given id; when no element matches, it sets `name` on the first flow
whose id equals the given id; when neither an element nor a flow
carries the id it silently returns the document unchanged — no
`NotFoundError` is raised. -/
theorem C7_rename_amended (d : BPMNJSON) (tid nm hex8 : String) (htid : tid ≠ "") :
    ((∀ e ∈ d.elements, e.id ≠ tid) → (∀ f ∈ d.flows, f.id ≠ some tid) →
      BpmnPatchService.applyPatch d
          { op := "rename", args := { id := some tid, name := some nm } } hex8 =
        .ok d) ∧
    (∀ pre e post, d.elements = pre ++ e :: post → (∀ x ∈ pre, x.id ≠ tid) → e.id = tid →
      BpmnPatchService.applyPatch d
          { op := "rename", args := { id := some tid, name := some nm } } hex8 =
        .ok { d with elements := pre ++ { e with name := some nm } :: post }) ∧
    (∀ pre f post, d.flows = pre ++ f :: post → (∀ e ∈ d.elements, e.id ≠ tid) →
      (∀ x ∈ pre, x.id ≠ some tid) → f.id = some tid →
      BpmnPatchService.applyPatch d
          { op := "rename", args := { id := some tid, name := some nm } } hex8 =
        .ok { d with flows := pre ++ { f with name := some nm } :: post }) := by
  have ht : truthy (some tid) = true := truthy_some_of_ne tid htid
  refine ⟨?_, ?_, ?_⟩
  · intro he hf
    simp [BpmnPatchService.applyPatch, BpmnPatchService.rename, ht,
      renameElems_eq_none tid nm d.elements he, renameFlows_eq_none tid nm d.flows hf]
  · intro pre e post hsplit hpre he
    simp [BpmnPatchService.applyPatch, BpmnPatchService.rename, ht, hsplit,
      renameElems_first tid nm pre e post hpre he]
  · intro pre f post hsplit helems hpre hf
    simp [BpmnPatchService.applyPatch, BpmnPatchService.rename, ht, hsplit,
      renameElems_eq_none tid nm d.elements helems,
      renameFlows_first tid nm pre f post hpre hf]

/-- C7 witness. -/
theorem C7_rename_amended_witness :
    (BpmnPatchService.applyPatch c7Doc
        { op := "rename", args := { id := some "zz", name := some "n" } } "h" = .ok c7Doc) ∧
    (BpmnPatchService.applyPatch c7Doc
        { op := "rename", args := { id := some "x", name := some "n" } } "h" =
      .ok { c7Doc with elements := [{ id := "x", type := "task", name := some "n" }] }) ∧
    (BpmnPatchService.applyPatch c7Doc
        { op := "rename", args := { id := some "f", name := some "n" } } "h" =
      .ok { c7Doc with flows := [{ id := some "f", source := "x", target := "x",
                                   type := "sequenceFlow", name := some "n" }] }) :=
  ⟨(C7_rename_amended c7Doc "zz" "n" "h" (by decide)).1 (by decide) (by decide),
   (C7_rename_amended c7Doc "x" "n" "h" (by decide)).2.1 [] { id := "x", type := "task" } []
     (by decide) (by decide) (by decide),
   (C7_rename_amended c7Doc "f" "n" "h" (by decide)).2.2 []
     { id := some "f", source := "x", target := "x" } []
     (by decide) (by decide) (by decide) (by decide)⟩

/-! ### C10 — add_node type normalization and generated id -/

/-- C10 counterexample: `add_node` with type `bpmn:SendTask` appends an
element whose type is rewritten to `task` but whose generated id is
prefixed with the pre-rewrite string `SendTask`, not with the
normalized type. -/
theorem C10_counterexample :
    BpmnPatchService.applyPatch c10Doc
        { op := "add_node", args := { type := some "bpmn:SendTask" } } "abcd1234" =
      .ok { c10Doc with
            elements := [{ id := "SendTask_abcd1234", type := "task", name := some "" }] } ∧
    ("SendTask_abcd1234" : String) ≠ "task" ++ "_" ++ "abcd1234" := by
  decide

/-- C10 (amended): `add_node` first strips every occurrence of
`"bpmn:"` from the requested type and generates the id from that
stripped string; only afterwards is a type containing `"Task"` outside
the `userTask`/`serviceTask`/`scriptTask`/`businessRuleTask` whitelist
rewritten to `"task"`, so `bpmn:SendTask` yields an element of type
`task` whose generated id is prefixed `SendTask_`, and construction
fails when the final type is not admitted by the schema. -/
theorem C10_addNode_amended (d : BPMNJSON) (ty hex8 : String)
    (hval : BpmnPatchService.addNodeFinalType { type := some ty } ∈ allowedElementTypes) :
    BpmnPatchService.applyPatch d { op := "add_node", args := { type := some ty } } hex8 =
      .ok { d with
            elements := d.elements ++
              [{ id := BpmnPatchService.addNodeType0 { type := some ty } ++ "_" ++ hex8,
                 type := BpmnPatchService.addNodeFinalType { type := some ty },
                 name := some "" }] } ∧
    BpmnPatchService.addNodeType0 { type := some ty } = pyReplace ty "bpmn:" "" ∧
    BpmnPatchService.addNodeFinalType { type := some ty } =
      (if strContains (pyReplace ty "bpmn:" "") "Task" ∧
          pyReplace ty "bpmn:" "" ∉ ["userTask", "serviceTask", "scriptTask", "businessRuleTask"]
        then "task" else pyReplace ty "bpmn:" "") := by
  refine ⟨?_, rfl, rfl⟩
  have hdis : BpmnPatchService.applyPatch d { op := "add_node", args := { type := some ty } }
      hex8 = BpmnPatchService.addNode d { type := some ty } hex8 := rfl
  rw [hdis, BpmnPatchService.addNode]
  simp only [truthy, if_pos hval]
  rfl

/-- C10 witness. -/
theorem C10_addNode_amended_witness :
    BpmnPatchService.applyPatch c10Doc
        { op := "add_node", args := { type := some "bpmn:SendTask" } } "1234abcd" =
      .ok { c10Doc with
            elements := [{ id := "SendTask_1234abcd", type := "task", name := some "" }] } := by
  have h := (C10_addNode_amended c10Doc "bpmn:SendTask" "1234abcd" (by decide)).1
  rw [h]
  decide

/-! ### C3 — atomic connect_by_name -/

/-- C3: a `connect_by_name` where exactly one of the two names resolves
in the name-to-id index errors during resolution, and the
resolve-then-apply pipeline therefore produces no document at all — in
particular no flow is appended.  (Resolution is a pure read of the
document; the patch service, the only mutating stage, is never
reached.) -/
theorem C3_atomic_connect (d : BPMNJSON) (sName tName hex8 : String)
    (h : ((buildNameToId d (asciiLower sName)).isSome ∧
            buildNameToId d (asciiLower tName) = none) ∨
         (buildNameToId d (asciiLower sName) = none ∧
            (buildNameToId d (asciiLower tName)).isSome)) :
    resolveNamesToIds d
        { op := "connect_by_name",
          args := { sourceName := some sName, targetName := some tName } } =
      .error ("Could not find nodes for connection: " ++ asciiLower sName ++ " -> " ++
        asciiLower tName) ∧
    applyResolvedPatch d
        { op := "connect_by_name",
          args := { sourceName := some sName, targetName := some tName } } hex8 =
      .error ("Could not find nodes for connection: " ++ asciiLower sName ++ " -> " ++
        asciiLower tName) := by
  have hcond : ¬ (truthy (buildNameToId d (asciiLower sName)) = true ∧
      truthy (buildNameToId d (asciiLower tName)) = true) := by
    rcases h with ⟨_, ht⟩ | ⟨hs, _⟩
    · rintro ⟨_, hT⟩
      rw [ht] at hT
      exact absurd hT (by simp [truthy])
    · rintro ⟨hS, _⟩
      rw [hs] at hS
      exact absurd hS (by simp [truthy])

  have hres : resolveNamesToIds d
      { op := "connect_by_name",
        args := { sourceName := some sName, targetName := some tName } } =
      .error ("Could not find nodes for connection: " ++ asciiLower sName ++ " -> " ++
        asciiLower tName) := by
    show (if truthy (buildNameToId d (asciiLower sName)) = true ∧
          truthy (buildNameToId d (asciiLower tName)) = true then
        Except.ok
          ({ op := "connect",
             args := { sourceId := buildNameToId d (asciiLower sName),
                       targetId := buildNameToId d (asciiLower tName) } } : Patch)
      else
        Except.error ("Could not find nodes for connection: " ++ asciiLower sName ++ " -> " ++
          asciiLower tName)) =
      Except.error ("Could not find nodes for connection: " ++ asciiLower sName ++ " -> " ++
        asciiLower tName)
    exact if_neg hcond
  refine ⟨hres, ?_⟩
  simp only [applyResolvedPatch]
  rw [hres]
  rfl

def c3Doc : BPMNJSON :=
  { process := { id := "P1" },
    elements := [{ id := "t1", type := "task", name := some "Review" }], flows := [] }

/-- C3 witness. -/
theorem C3_atomic_connect_witness :
    resolveNamesToIds c3Doc
        { op := "connect_by_name",
          args := { sourceName := some "Review", targetName := some "ghost" } } =
      .error ("Could not find nodes for connection: " ++ asciiLower "Review" ++ " -> " ++
        asciiLower "ghost") ∧
    applyResolvedPatch c3Doc
        { op := "connect_by_name",
          args := { sourceName := some "Review", targetName := some "ghost" } } "aa11bb22" =
      .error ("Could not find nodes for connection: " ++ asciiLower "Review" ++ " -> " ++
        asciiLower "ghost") :=
  C3_atomic_connect c3Doc "Review" "ghost" "aa11bb22" (by decide)

/-! ### C9 — name-to-id resolution -/

lemma foldl_insert_ids (l : List BPMNElement) (m : String → Option String) (k : String) :
    (l.foldl (fun m n => dictInsert m (asciiLower n.id) n.id) m) k =
      (match l.reverse.find? (fun n => asciiLower n.id == k) with
       | some n => some n.id
       | none => m k) := by
  induction l generalizing m with
  | nil => rfl
  | cons n rest ih =>
    rw [List.foldl_cons, ih]
    simp only [List.reverse_cons, List.find?_append]
    cases hfind : rest.reverse.find? (fun e => asciiLower e.id == k) with
    | some x => simp [hfind]
    | none =>
      by_cases hk : asciiLower n.id = k
      · simp [hfind, List.find?, hk, dictInsert]
      · have hbeq : (asciiLower n.id == k) = false := by simp [hk]
        simp only [hfind, List.find?, hbeq, dictInsert]
        rw [if_neg fun h => hk h.symm]
        rfl

lemma foldl_insert_names (l : List BPMNElement) (m : String → Option String) (k : String) :
    (l.foldl
        (fun m n =>
          if truthy n.name then dictInsert m (asciiLower (n.name.getD "")) n.id else m) m) k =
      (match l.reverse.find?
          (fun n => truthy n.name && (asciiLower (n.name.getD "") == k)) with
       | some n => some n.id
       | none => m k) := by
  induction l generalizing m with
  | nil => rfl
  | cons n rest ih =>
    rw [List.foldl_cons, ih]
    simp only [List.reverse_cons, List.find?_append]
    cases hfind : rest.reverse.find?
        (fun e => truthy e.name && (asciiLower (e.name.getD "") == k)) with
    | some x => simp [hfind]
    | none =>
      by_cases htr : truthy n.name = true
      · by_cases hk : asciiLower (n.name.getD "") = k
        · simp [hfind, List.find?, htr, hk, dictInsert]
        · have hbeq : (asciiLower (n.name.getD "") == k) = false := by simp [hk]
          simp only [hfind, List.find?, htr, hbeq, dictInsert, if_true, Bool.true_and]
          rw [if_neg fun h => hk h.symm]
          rfl
      · have htr' : truthy n.name = false := Bool.of_not_eq_true htr
        simp [hfind, List.find?, htr']

/-- The dictionary built by `resolve_names_to_ids`: id entries are
inserted after name entries, so an id match (the most recently inserted
one) wins; the name entries only serve as a fallback. -/
lemma buildNameToId_spec (d : BPMNJSON) (k : String) :
    buildNameToId d k =
      (match d.elements.reverse.find? (fun n => asciiLower n.id == k) with
       | some n => some n.id
       | none =>
         match d.elements.reverse.find?
             (fun n => truthy n.name && (asciiLower (n.name.getD "") == k)) with
         | some n => some n.id
         | none => none) := by
  unfold buildNameToId
  rw [foldl_insert_ids]
  cases hid : d.elements.reverse.find? (fun n => asciiLower n.id == k) with
  | some x => rfl
  | none =>
    rw [foldl_insert_names]


def c9RevDoc : BPMNJSON :=
  { process := { id := "P1" },
    elements := [{ id := "t1", type := "task", name := some "Review" }], flows := [] }

def c9Doc : BPMNJSON :=
  { process := { id := "P1" },
    elements := [{ id := "a1", type := "task", name := some "t2" },
                 { id := "t2", type := "task", name := some "B" }], flows := [] }

/-- C9 counterexample: element `a1` is named `"t2"`, which is also the
id of another element; the claim says the name mapping wins (resolving
`"t2"` to `"a1"`), but the id pass runs second and overwrites, so
`"t2"` resolves to the id `"t2"`. -/
theorem C9_counterexample :
    lookupName c9Doc "t2" = some "t2" ∧
    (c9Doc.elements.map fun e => (e.id, e.name)) = [("a1", some "t2"), ("t2", some "B")] ∧
    lookupName c9Doc "t2" ≠ some "a1" := by
  decide

/-- C9 (amended): resolution lowercases both the query and the stored
names/ids, and the example `{id:"t1", name:"Review"}` resolves
`"Review"`, `"REVIEW"` and `"t1"` to `"t1"`; but the id mapping is
built after the name mapping, so whenever one element's name equals
another element's id (case-insensitively) the id mapping wins and the
name mapping serves only as the fallback. -/
theorem C9_name_resolution_amended :
    (lookupName c9RevDoc "Review" = some "t1" ∧ lookupName c9RevDoc "REVIEW" = some "t1" ∧
      lookupName c9RevDoc "t1" = some "t1") ∧
    (∀ (d : BPMNJSON) (q : String) (el : BPMNElement),
      d.elements.reverse.find? (fun n => asciiLower n.id == asciiLower q) = some el →
      lookupName d q = some el.id) ∧
    (∀ (d : BPMNJSON) (q : String) (el : BPMNElement),
      d.elements.reverse.find? (fun n => asciiLower n.id == asciiLower q) = none →
      d.elements.reverse.find?
          (fun n => truthy n.name && (asciiLower (n.name.getD "") == asciiLower q)) =
        some el →
      lookupName d q = some el.id) := by
  refine ⟨by decide, ?_, ?_⟩
  · intro d q el hid
    rw [lookupName, buildNameToId_spec, hid]
  · intro d q el hid hname
    rw [lookupName, buildNameToId_spec, hid, hname]

/-- C9 witness. -/
theorem C9_name_resolution_amended_witness :
    lookupName c9Doc "T2" = some "t2" ∧ lookupName c9RevDoc "REVIEW" = some "t1" :=
  ⟨C9_name_resolution_amended.2.1 c9Doc "T2" { id := "t2", type := "task", name := some "B" }
      (by decide),
   C9_name_resolution_amended.2.2 c9RevDoc "REVIEW"
      { id := "t1", type := "task", name := some "Review" } (by decide) (by decide)⟩

/-! ### C4 — gateway fan-out rule -/

def c4ParallelDoc : BPMNJSON :=
  { process := { id := "P1" },
    elements := [{ id := "s", type := "startEvent" },
                 { id := "pg", type := "parallelGateway" },
                 { id := "e", type := "endEvent" }],
    flows := [{ id := some "f1", source := "s", target := "pg" },
              { id := some "f2", source := "pg", target := "e" }] }

/-- C4 counterexample: a `parallelGateway` with exactly one outgoing
flow produces no Linter violation at all — the fan-out rule in the
source checks only `exclusiveGateway` (and `bpmn:ExclusiveGateway`)
elements, not parallel, inclusive or event-based gateways. -/
theorem C4_counterexample :
    (c4ParallelDoc.elements.map fun e => (e.id, e.type)) =
      [("s", "startEvent"), ("pg", "parallelGateway"), ("e", "endEvent")] ∧
    outgoingCount c4ParallelDoc "pg" = 1 ∧
    lint c4ParallelDoc = [] := by
  decide

def c4ExclDoc1 : BPMNJSON :=
  { process := { id := "P1" },
    elements := [{ id := "s", type := "startEvent" },
                 { id := "g", type := "exclusiveGateway", name := some "Decide" },
                 { id := "e", type := "endEvent" }],
    flows := [{ id := some "f1", source := "s", target := "g" },
              { id := some "f2", source := "g", target := "e" }] }

def c4ExclDoc2 : BPMNJSON :=
  { process := { id := "P1" },
    elements := [{ id := "s", type := "startEvent" },
                 { id := "g", type := "exclusiveGateway", name := some "Decide" },
                 { id := "e", type := "endEvent" },
                 { id := "e2", type := "endEvent" }],
    flows := [{ id := some "f1", source := "s", target := "g" },
              { id := some "f2", source := "g", target := "e" },
              { id := some "f3", source := "g", target := "e2" }] }

/-- C4 (amended): the Linter's fan-out rule applies to
`exclusiveGateway` elements only: every exclusiveGateway with fewer
than 2 outgoing flows yields the violation naming it, an
exclusiveGateway with exactly one outgoing flow yields exactly one such
violation, and adding a second outgoing flow removes it; parallel,
inclusive and event-based gateways are not fan-out-checked. -/
theorem C4_gateway_fanout_amended :
    (∀ (d : BPMNJSON) (gw : BPMNElement), gw ∈ d.elements →
      isExclusiveGatewayType gw.type = true → outgoingCount d gw.id < 2 →
      fanoutMsg gw ∈ lint d) ∧
    (lint c4ExclDoc1).count
        (fanoutMsg { id := "g", type := "exclusiveGateway", name := some "Decide" }) = 1 ∧
    (lint c4ExclDoc2).count
        (fanoutMsg { id := "g", type := "exclusiveGateway", name := some "Decide" }) = 0 := by
  refine ⟨?_, by decide, by decide⟩
  intro d gw hmem htype hout
  have h4 : fanoutMsg gw ∈
      (d.elements.filter fun n => isExclusiveGatewayType n.type).filterMap fun g =>
        if outgoingCount d g.id < 2 then some (fanoutMsg g) else none := by
    refine List.mem_filterMap.mpr ⟨gw, ?_, ?_⟩
    · exact List.mem_filter.mpr ⟨hmem, htype⟩
    · rw [if_pos hout]
  simp only [lint, List.mem_append]
  tauto

/-- C4 witness. -/
theorem C4_gateway_fanout_amended_witness :
    fanoutMsg { id := "g", type := "exclusiveGateway", name := some "Decide" } ∈
      lint c4ExclDoc1 :=
  C4_gateway_fanout_amended.1 c4ExclDoc1
    { id := "g", type := "exclusiveGateway", name := some "Decide" } (by decide) (by decide)
    (by decide)

/-! ### C8 — deterministic interpreter: first matching rule wins -/

lemma interpretCore_eq_findSome (c : String) :
    interpretCore c = (interpreterRules.findSome? fun r => r c).getD noopPatch := by
  unfold interpretCore interpreterRules
  cases h1 : ruleAddTask c with
  | some p => simp [List.findSome?, h1]
  | none =>
  cases h2 : ruleAddStart c with
  | some p => simp [List.findSome?, h1, h2]
  | none =>
  cases h3 : ruleAddEnd c with
  | some p => simp [List.findSome?, h1, h2, h3]
  | none =>
  cases h4 : ruleConnect c with
  | some p => simp [List.findSome?, h1, h2, h3, h4]
  | none =>
  cases h5 : ruleRemove c with
  | some p => simp [List.findSome?, h1, h2, h3, h4, h5]
  | none =>
  cases h6 : ruleRename c with
  | some p => simp [List.findSome?, h1, h2, h3, h4, h5, h6]
  | none =>
  cases h7 : ruleConvert c with
  | some p => simp [List.findSome?, h1, h2, h3, h4, h5, h6, h7]
  | none =>
  cases h8 : ruleMoveToLane c with
  | some p => simp [List.findSome?, h1, h2, h3, h4, h5, h6, h7, h8]
  | none =>
  cases h9 : ruleSetProperty c with
  | some p => simp [List.findSome?, h1, h2, h3, h4, h5, h6, h7, h8, h9]
  | none =>
  cases h10 : ruleAddParallel c with
  | some p => simp [List.findSome?, h1, h2, h3, h4, h5, h6, h7, h8, h9, h10]
  | none =>
  cases h11 : ruleAddExclusive c with
  | some p => simp [List.findSome?, h1, h2, h3, h4, h5, h6, h7, h8, h9, h10, h11]
  | none => simp [List.findSome?, h1, h2, h3, h4, h5, h6, h7, h8, h9, h10, h11]

/-- C8: the deterministic interpreter lowercases and strips the
command, tries its pattern rules in their fixed order and returns the
operation of the first rule that matches; a command matching no rule —
for example `"gibberish"`, which matches none — yields `{op: "noop"}`. -/
theorem C8_interpreter_first_match :
    (∀ command : String,
      interpret command =
        (interpreterRules.findSome? fun r => r (pyStrip (asciiLower command))).getD noopPatch) ∧
    (interpreterRules.findSome? fun r => r "gibberish") = none ∧
    interpret "gibberish" = noopPatch := by
  refine ⟨fun command => ?_, by decide, by decide⟩
  rw [interpret, interpretCore_eq_findSome]

/-! ### C2 — codec round trip

The plan: characterize `descendants tag` on the exported tree (the only
variable tags are the element nodes' `nsB el.type`; every other tag in
the tree is a fixed namespaced constant), then push the importer's
element/flow loops through that characterization.  Elements come back
grouped by the importer's fixed tag order — a permutation of the
original element list; flows come back in order. -/

lemma XmlNodeList.toList_ofList (l : List XmlNode) : (XmlNodeList.ofList l).toList = l := by
  induction l with
  | nil => rfl
  | cons x xs ih => simp [XmlNodeList.ofList, XmlNodeList.toList, ih]

lemma XmlNode.children_make (t : String) (a : List (String × Option String))
    (ch : List XmlNode) (tx : Option String) : (XmlNode.make t a ch tx).children = ch :=
  XmlNodeList.toList_ofList ch

lemma desc_leaf (tg t : String) (a : List (String × Option String)) (tx : Option String) :
    descendants tg (XmlNode.make t a [] tx) = [] := rfl

lemma importElement_elementNode (d : BPMNJSON) (el : BPMNElement) (T : String) :
    importElement (T, elementNode d el) = .ok { id := el.id, type := T, name := el.name } := rfl

lemma importFlow_seqFlowNode (f : SequenceFlow) :
    importFlow (seqFlowNode f) =
      .ok { id := f.id, source := f.source, target := f.target, type := "sequenceFlow",
            name := none } := rfl

lemma incomingNode_serializable (fid : Option String) :
    serializableN (incomingNode fid) = true := rfl

lemma outgoingNode_serializable (fid : Option String) :
    serializableN (outgoingNode fid) = true := rfl

/-- The importer's tag list enumerates exactly the element types the
shared schema's `Literal` admits, so the round-trip hypothesis is
"every element has one of the model's element types". -/
lemma importNodeTypes_iff_allowed (t : String) :
    t ∈ importNodeTypes ↔ t ∈ allowedElementTypes := by
  constructor <;> intro h <;> fin_cases h <;> decide

end ProcessLab
